import Mathlib

/-!
Verification development for the tide-calendar core (`tides.py`).

The Python source is shallowly embedded:
- machine floats that only ever flow through parsing and order comparisons
  (tide predictions, thresholds) are modelled as `Rat`; the upstream feed
  carries short decimal literals, and every claim about them concerns only
  the strictness of an order comparison;
- `Decimal` latitude/longitude values are modelled as their decimal string
  rendering (they are only ever formatted into URLs and cache keys);
- Python exceptions are modelled by `Except PyError`;
- the on-disk cache is an explicit association list from file path to the
  utf-8 decoded text that `retrieve_url_and_cache` writes, and every
  network fetch is counted so that "no network call" claims are statable;
- `pytz` timezone objects are modelled by a `Tz` record carrying the zone
  name and the wall-clock-to-epoch localization function; HTML extraction
  done by BeautifulSoup (locating tables and the timezone string) is
  abstracted as function parameters, while everything the repository
  itself computes from the extracted cells is embedded concretely.
-/

/-! ## Python string and number primitives used by the source

All string processing is implemented by structural recursion over the
character list of the string, so that every definition evaluates under
kernel reduction (the corresponding core `String` functions are
position-based loops that do not). -/

/-- Python's whitespace set for `str.strip()` (the ASCII part, which is
all that occurs in the NOAA feeds). -/
def isPySpace (c : Char) : Bool :=
  c = ' ' || c = '\t' || c = '\n' || c = '\r' || c = '\x0b' || c = '\x0c'

/-- Python `str.strip()`. -/
def pyStrip (s : String) : String :=
  ⟨((s.toList.dropWhile isPySpace).reverse.dropWhile isPySpace).reverse⟩

/-- Python `str.lower()` (ASCII inputs only in this code base). -/
def pyLower (s : String) : String := ⟨s.toList.map Char.toLower⟩

/-- Split a character list at every occurrence of `sep`, keeping empty
fragments, as Python `str.split(sep)` does for a one-character separator. -/
def listSplit (sep : Char) : List Char → List (List Char)
  | [] => [[]]
  | c :: cs =>
    match listSplit sep cs with
    | [] => if c = sep then [[], []] else [[c]]
    | h :: t => if c = sep then [] :: h :: t else (c :: h) :: t

/-- Python `str.split(sep)` for the one-character separators the source
uses ("/", ":", a tab, a newline, "."). -/
def splitOnChar (sep : Char) (s : String) : List String :=
  (listSplit sep s.toList).map (fun l => ⟨l⟩)

/-- Whether `p` is an initial segment of `l` (for `str.startswith`). -/
def listStarts : List Char → List Char → Bool
  | [], _ => true
  | _ :: _, [] => false
  | p :: ps, c :: cs => p == c && listStarts ps cs

/-- Python `s[0]` rendered as a one-character string (only applied to
nonempty strings in the source). -/
def strTake1 (s : String) : String := ⟨s.toList.take 1⟩

/-- Python `str.replace(old, new)` for a one-character `old`, which is the
only form the source uses. -/
def replaceChar (old : Char) (new : String) (s : String) : String :=
  ⟨(s.toList.map (fun x => if x == old then new.toList else [x])).flatten⟩

/-- Digit-string to `Nat`; `none` when empty or a non-digit occurs. -/
def digitsToNat? (l : List Char) : Option Nat :=
  match l with
  | [] => none
  | _ =>
    l.foldl (fun acc c =>
      match acc with
      | none => none
      | some n => if c.isDigit then some (n * 10 + (c.toNat - '0'.toNat)) else none)
      (some 0)

/-- Python `int(s)` restricted to the decimal-integer grammar (optional
sign, digits, surrounding whitespace) that the NOAA documents use. -/
def pyInt? (s : String) : Option Int :=
  let t := pyStrip s
  match t.toList with
  | '-' :: rest => (digitsToNat? rest).map (fun n => -(n : Int))
  | '+' :: rest => (digitsToNat? rest).map (fun n => (n : Int))
  | l => (digitsToNat? l).map (fun n => (n : Int))

/-- Python `float(s)` restricted to plain decimal literals (optional sign,
digits, optional fractional part), the grammar of the prediction fields;
the value is kept exact as a rational. -/
def parseDecimal? (s : String) : Option Rat :=
  let t := (pyStrip s).toList
  let sgn : Int := if listStarts ['-'] t then -1 else 1
  let body := if listStarts ['-'] t || listStarts ['+'] t then t.drop 1 else t
  match listSplit '.' body with
  | [a] => (digitsToNat? a).map (fun n => mkRat (sgn * n) 1)
  | [a, b] =>
    if a.isEmpty && b.isEmpty then none
    else
      match (if a.isEmpty then some 0 else digitsToNat? a),
            (if b.isEmpty then some 0 else digitsToNat? b) with
      | some ia, some ib =>
        some (mkRat (sgn * (ia * 10 ^ b.length + ib)) (10 ^ b.length))
      | _, _ => none
  | _ => none

/-! ## Calendar arithmetic (the fragment of `datetime` the source relies on) -/

/-- Gregorian leap-year test. -/
def isLeap (y : Int) : Bool := (y % 4 == 0 && y % 100 != 0) || y % 400 == 0

/-- Days in a month of the proleptic Gregorian calendar. -/
def daysInMonth (y : Int) (m : Int) : Int :=
  if m == 2 then (if isLeap y then 29 else 28)
  else if m == 4 || m == 6 || m == 9 || m == 11 then 30
  else 31

/-- Days from 1970-01-01 to the given civil date (valid for year >= 1);
the standard era-based computation. -/
def daysFromCivilNat (y m d : Nat) : Int :=
  let y2 := if m ≤ 2 then y - 1 else y
  let era := y2 / 400
  let yoe := y2 % 400
  let mp := if 2 < m then m - 3 else m + 9
  let doy := (153 * mp + 2) / 5 + d - 1
  let doe := yoe * 365 + yoe / 4 - yoe / 100 + doy
  ((era * 146097 + doe : Nat) : Int) - 719468

/-- Python `datetime.weekday()`: Monday = 0 .. Sunday = 6 (1970-01-01 was a
Thursday, weekday 3). -/
def weekday (y m d : Int) : Int :=
  (daysFromCivilNat y.toNat m.toNat d.toNat + 3) % 7

/-- Year of a day count since 1970-01-01 (inverse civil computation). -/
def civilYearFromDays (days : Nat) : Nat :=
  let z := days + 719468
  let era := z / 146097
  let doe := z % 146097
  let yoe := (doe - doe / 1460 + doe / 36524 - doe / 146096) / 365
  let y := yoe + era * 400
  let doy := doe - (365 * yoe + yoe / 4 - yoe / 100)
  let mp := (5 * doy + 2) / 153
  let m := if mp < 10 then mp + 3 else mp - 9
  if m ≤ 2 then y + 1 else y

/-- Year component of a naive epoch-second reading (used to model
`datetime.now().year`; the post-1970 range is the one this program runs in). -/
def yearOfNaiveEpoch (e : Int) : Int :=
  (civilYearFromDays (Int.fdiv e 86400).toNat : Nat)

/-- Zero-pad to two digits, as `strftime` does for `%m` and `%d`. -/
def pad2 (n : Nat) : String :=
  if n < 10 then "0" ++ toString n else toString n

/-- Zero-pad to four digits, as `strftime` does for `%Y`. -/
def pad4 (n : Nat) : String :=
  if n < 10 then "000" ++ toString n
  else if n < 100 then "00" ++ toString n
  else if n < 1000 then "0" ++ toString n
  else toString n

/-- `strftime(DATE_FORMAT)` with `DATE_FORMAT = "%Y/%m/%d"`. -/
def formatDate (y m d : Int) : String :=
  pad4 y.toNat ++ "/" ++ pad2 m.toNat ++ "/" ++ pad2 d.toNat

/-! ## Data model (`tides.py` lines 15-79) -/

/-- `ONE_HOUR = 60 * 60` (line 15). -/
def ONE_HOUR : Int := 60 * 60

/-- Decidable equality of `Except` values (needed to evaluate the model
on concrete inputs). -/
instance {ε α : Type} [DecidableEq ε] [DecidableEq α] :
    DecidableEq (Except ε α) := fun a b =>
  match a, b with
  | .ok x, .ok y =>
    if h : x = y then isTrue (by rw [h]) else isFalse (by simp [h])
  | .error x, .error y =>
    if h : x = y then isTrue (by rw [h]) else isFalse (by simp [h])
  | .ok _, .error _ => isFalse (by simp)
  | .error _, .ok _ => isFalse (by simp)

/-- The Python exception kinds this code can raise. -/
inductive PyError where
  | valueError
  | typeError
  | keyError
  | indexError
  | assertionError
deriving DecidableEq, Repr

/-- `class TideType(StrEnum)` with members LOW and HIGH (lines 31-33). -/
inductive TideType where
  | low
  | high
deriving DecidableEq, Repr

/-- The `StrEnum` value of a member (`auto()` gives the lowercase name). -/
def TideType.value : TideType → String
  | .low => "low"
  | .high => "high"

/-- `TideType(s)`: member lookup by value, falling back on `_missing_`
(lines 35-44), which maps exactly "L" to low and "H" to high; everything
else raises `ValueError` (modelled as `none`). -/
def coerceTideType (s : String) : Option TideType :=
  if s = "low" then some .low
  else if s = "high" then some .high
  else if s = "L" then some .low
  else if s = "H" then some .high
  else none

/-- `class DayFilter(StrEnum)` (lines 47-50). -/
inductive DayFilter where
  | any
  | weekday
  | weekend
deriving DecidableEq, Repr

/-- `DayFilter(s)`: member lookup by value, no `_missing_` fallback. -/
def coerceDayFilter (s : String) : Option DayFilter :=
  if s = "any" then some .any
  else if s = "weekday" then some .weekday
  else if s = "weekend" then some .weekend
  else none

/-- `class HoursFilter(StrEnum)` (lines 53-57). -/
inductive HoursFilter where
  | day
  | day_1
  | night
  | anytime
deriving DecidableEq, Repr

/-- `HoursFilter(s)`: member lookup by value, no `_missing_` fallback. -/
def coerceHoursFilter (s : String) : Option HoursFilter :=
  if s = "day" then some .day
  else if s = "day_1" then some .day_1
  else if s = "night" then some .night
  else if s = "anytime" then some .anytime
  else none

/-- `@dataclass Daylight` (lines 60-63): sunrise and sunset epoch seconds. -/
structure Daylight where
  sunrise : Int
  sunset : Int
deriving DecidableEq, Repr

/-- A `pytz` timezone object as the source uses it: its `.zone` name and
its `localize(datetime(y, m, d, h, mi)).timestamp()` reading. -/
structure Tz where
  zone : String
  localize : Int → Int → Int → Int → Int → Int

/-- `@dataclass DaylightInfo` (lines 66-69). -/
structure DaylightInfo where
  daylight : List (String × Daylight)
  tz : Tz

/-- `@dataclass Station` (lines 21-28); `Decimal` coordinates are modelled
by their decimal string rendering, which is all the source uses them for. -/
structure Station where
  name : String
  state : String
  nos_id : String
  nws_id : String
  latitude : String
  longitude : String
deriving DecidableEq, Repr

/-- `@dataclass Tide` (lines 72-79). -/
structure Tide where
  date : String
  tide_type : TideType
  tide : Int
  prediction : Rat
  daylight : Daylight
deriving DecidableEq, Repr

/-- The dictionary `find_tides` returns (line 305). -/
structure FindResult where
  tides : List Tide
  tz : String
deriving DecidableEq, Repr

/-! ## Cache store (`retrieve_url_and_cache`, lines 82-90) -/

/-- The cache directory as a map from file path to the utf-8 decoded text
written by `retrieve_url_and_cache`. -/
abbrev CacheState := List (String × String)

/-- File read: contents of a cached file (the source only reads paths it
just ensured exist). -/
def contentsOf (c : CacheState) (path : String) : String :=
  (List.lookup path c).getD ""

/-- `retrieve_url_and_cache(url, path)` (lines 82-90): if `path` does not
exist, fetch `url` and write the decoded response to `path`.  The returned
`Nat` counts network fetches performed (instrumentation required by the
spec's testable properties). -/
def retrieve_url_and_cache (fetch : String → String) (url path : String)
    (c : CacheState) : CacheState × Nat :=
  if (List.lookup path c).isSome then (c, 0)
  else (c ++ [(path, fetch url)], 1)

/-! ## Cache keys and URLs (lines 98-100, 146-153, 180-182) -/

/-- URL of the station directory (line 180). -/
def stations_url : String := "https://access.co-ops.nos.noaa.gov/nwsproducts.html"

/-- Cache path of the station directory (line 182). -/
def stations_cached_file : String := "cache/stations.html"

/-- URL of the annual tide feed (line 98). -/
def tides_url (station : Station) (year : Int) : String :=
  "https://tidesandcurrents.noaa.gov/cgi-bin/predictiondownload.cgi?&stnid="
    ++ station.nos_id
    ++ "&threshold=&thresholdDirection=greaterThan&bdate=" ++ toString year
    ++ "&timezone=LST/LDT&datum=MLLW&clock=24hour&type=txt&annual=true"

/-- Cache path of the annual tide feed (line 100). -/
def tides_cached_file (station : Station) (year : Int) : String :=
  "cache/" ++ toString year ++ "_" ++ station.nos_id ++ "_tides.txt"

/-- `format(lat_or_lng)` inside `get_daylight` (lines 148-149). -/
def decimal_format (s : String) : String :=
  replaceChar '-' "neg" (replaceChar '.' "_" s)

/-- The `lat_lng` key fragment (line 151). -/
def lat_lng (station : Station) : String :=
  decimal_format station.latitude ++ "_" ++ decimal_format station.longitude

/-- URL of the daylight document (line 146). -/
def daylight_url (station : Station) (year : Int) : String :=
  "https://gml.noaa.gov/grad/solcalc/table.php?lat=" ++ station.latitude
    ++ "&lon=" ++ station.longitude ++ "&year=" ++ toString year

/-- Cache path of the daylight document (line 153). -/
def daylight_cached_file (station : Station) (year : Int) : String :=
  "cache/" ++ toString year ++ "_" ++ lat_lng station ++ "_daylight.html"

/-! ## Tide table parser (`get_tides`, lines 93-114) -/

/-- The preamble skip: `while len(f.readline().strip()) > 0: pass` --
consume lines until (and including) the first blank line or end of file. -/
def dropPreamble : List String → List String
  | [] => []
  | l :: ls => if pyStrip l = "" then ls else dropPreamble ls

/-- Body extraction and `csv.reader(f, delimiter="\t")` of `get_tides`
(lines 103-114): skip the preamble and the header line, then split each
remaining line on tabs (a blank interior line becomes the empty record,
as `csv.reader` yields; the file's trailing newline yields no record). -/
def get_tides_rows (contents : String) : List (List String) :=
  let lines := splitOnChar '\n' contents
  let body := (dropPreamble lines).drop 1
  let body := if body.getLast? = some "" then body.dropLast else body
  body.map (fun l => if l = "" then [] else splitOnChar '\t' l)

/-! ## Daylight table parser (`parse_table`, lines 117-139, and the join in
`get_daylight`, lines 156-176) -/

/-- Python dict assignment `times[k] = v`: overwrite in place when the key
exists, append otherwise (insertion order preserved). -/
def dictInsert (l : List (String × α)) (k : String) (v : α) :
    List (String × α) :=
  if (List.lookup k l).isSome then
    l.map (fun p => if p.1 == k then (k, v) else p)
  else l ++ [(k, v)]

/-- `datetime(year, month, day, hour, minute)` validation followed by
`tz.localize(..)`: returns the `strftime("%Y/%m/%d")` key and the epoch
reading, or `ValueError` when a component is out of range. -/
def mkDatetimeEpoch (tz : Tz) (y m d h mi : Int) :
    Except PyError (String × Int) :=
  if 1 ≤ y ∧ y ≤ 9999 ∧ 1 ≤ m ∧ m ≤ 12 ∧ 1 ≤ d ∧ d ≤ daysInMonth y m
      ∧ 0 ≤ h ∧ h ≤ 23 ∧ 0 ≤ mi ∧ mi ≤ 59 then
    .ok (formatDate y m d, tz.localize y m d h mi)
  else .error .valueError

/-- The inner cell loop of `parse_table` (lines 128-138): `idx` is the
`enumerate` index, column 0 carries the day of month, later columns are
months; the running `day_of_month` persists across cells and rows. -/
def parse_cells (year : Int) (tz : Tz) :
    List (String × Int) → Option Int → Nat → List String →
    Except PyError (List (String × Int) × Option Int)
  | times, dom, _, [] => .ok (times, dom)
  | times, dom, idx, cell :: rest =>
    let text := pyStrip cell
    if text = "" then parse_cells year tz times dom (idx + 1) rest
    else if idx = 0 then
      match pyInt? text with
      | none => .error .valueError
      | some d => parse_cells year tz times (some d) (idx + 1) rest
    else
      match splitOnChar ':' text with
      | [hs, ms] =>
        match pyInt? hs, pyInt? ms with
        | some h, some mi =>
          match dom with
          | none => .error .typeError
          | some d =>
            match mkDatetimeEpoch tz year idx d h mi with
            | .error e => .error e
            | .ok (key, epoch) =>
              parse_cells year tz (dictInsert times key epoch) dom (idx + 1) rest
        | _, _ => .error .valueError
      | _ => .error .valueError

/-- The row loop of `parse_table` (line 127). -/
def parse_rows (year : Int) (tz : Tz) :
    List (List String) → List (String × Int) → Option Int →
    Except PyError (List (String × Int))
  | [], times, _ => .ok times
  | r :: rs, times, dom =>
    match parse_cells year tz times dom 0 r with
    | .error e => .error e
    | .ok (times2, dom2) => parse_rows year tz rs times2 dom2

/-- `parse_table(table, year, tz)` (lines 117-139): date string to the
localized epoch reading of the cell's time. -/
def parse_table (table : List (List String)) (year : Int) (tz : Tz) :
    Except PyError (List (String × Int)) :=
  parse_rows year tz table [] none

/-- The join in `get_daylight` (lines 171-174): for each date of the
sunrise dict, in insertion order, look the same date up in the sunset dict
(`KeyError` when absent) and store a `Daylight` record. -/
def daylight_join :
    List (String × Int) → List (String × Int) → List (String × Daylight) →
    Except PyError (List (String × Daylight))
  | [], _, acc => .ok acc
  | (k, r) :: rest, sunset, acc =>
    match List.lookup k sunset with
    | none => .error .keyError
    | some s => daylight_join rest sunset (dictInsert acc k ⟨r, s⟩)

/-! ## Station directory (`get_stations`, lines 179-210) -/

/-- The sort key of line 208: `f"{station.state}, {station.name}"`. -/
def station_sort_key (s : Station) : String := s.state ++ ", " ++ s.name

/-- Stable insertion step: place `x` before the first element whose key is
not below it, preserving the relative order of equal keys as Python's
stable `sorted` does. -/
def insertByKey (x : Station) : List Station → List Station
  | [] => [x]
  | y :: ys =>
    if station_sort_key x ≤ station_sort_key y then x :: y :: ys
    else y :: insertByKey x ys

/-- Stable sort by `station_sort_key`, modelling `sorted(stations, key=..)`
of line 208 (Python's sort is stable; so is this insertion sort). -/
def sortStations : List Station → List Station
  | [] => []
  | x :: xs => insertByKey x (sortStations xs)

/-- `get_stations()` (lines 179-210): cache-or-fetch the directory page,
extract the station rows (HTML extraction abstracted as `pst`), and sort
by state-and-name key. -/
def get_stations (pst : String → List Station) (fetch : String → String)
    (c : CacheState) : List Station × CacheState × Nat :=
  let rc := retrieve_url_and_cache fetch stations_url stations_cached_file c
  let stations := pst (contentsOf rc.1 stations_cached_file)
  (sortStations stations, rc.1, rc.2)

/-! ## Daylight retrieval (`get_daylight`, lines 142-176) -/

/-- What BeautifulSoup extraction yields from the daylight document: the
timezone discovered from the "Time Zone Offset" text (already resolved via
`pytz.timezone`) and the first two tables in document order, as cell
grids.  A missing timezone text or table surfaces as an error. -/
abbrev DaylightDoc := Tz × List (List String) × List (List String)

/-- `get_daylight(station, year)` (lines 142-176): cache-or-fetch the
document, extract timezone and the two grids (`pdl`), parse the sunrise
grid (tables[0]) and the sunset grid (tables[1]), then join by date. -/
def get_daylight (pdl : String → Except PyError DaylightDoc)
    (fetch : String → String) (station : Station) (year : Int)
    (c : CacheState) : Except PyError DaylightInfo × CacheState × Nat :=
  let rc := retrieve_url_and_cache fetch (daylight_url station year)
    (daylight_cached_file station year) c
  match pdl (contentsOf rc.1 (daylight_cached_file station year)) with
  | .error e => (.error e, rc.1, rc.2)
  | .ok (tz, t0, t1) =>
    match parse_table t0 year tz with
    | .error e => (.error e, rc.1, rc.2)
    | .ok sunrise =>
      match parse_table t1 year tz with
      | .error e => (.error e, rc.1, rc.2)
      | .ok sunset =>
        match daylight_join sunrise sunset [] with
        | .error e => (.error e, rc.1, rc.2)
        | .ok times => (.ok ⟨times, tz⟩, rc.1, rc.2)

/-- `get_tides(station, year)` (lines 93-114): cache-or-fetch the annual
feed and parse its body into raw rows. -/
def get_tides (fetch : String → String) (station : Station) (year : Int)
    (c : CacheState) : List (List String) × CacheState × Nat :=
  let rc := retrieve_url_and_cache fetch (tides_url station year)
    (tides_cached_file station year) c
  (get_tides_rows (contentsOf rc.1 (tides_cached_file station year)),
    rc.1, rc.2)

/-! ## Input normalization of `find_tides` (lines 213-239, 269-270) -/

/-- The `str | X` argument types of `find_tides`; `year` is optional so
that relying on the module-level default is observable. -/
structure Args where
  station : Sum String Station
  year : Option (Sum String Int)
  tide_type : Sum String TideType
  prediction_limit : Sum String Rat
  day_filter : Sum String DayFilter
  hours_filter : Sum String HoursFilter

/-- Station resolution (lines 226-227):
`[s for s in stations if s.nos_id == station][0]`, `IndexError` when no
station matches the id string. -/
def resolve_station (stations : List Station) (st : Sum String Station) :
    Except PyError Station :=
  match st with
  | .inr s => .ok s
  | .inl id =>
    match (stations.filter (fun s => s.nos_id == id)).head? with
    | some s => .ok s
    | none => .error .indexError

/-- Lines 229-230: `tide_type = TideType(tide_type)` when a string. -/
def coerce_tide_type (t : Sum String TideType) : Except PyError TideType :=
  match t with
  | .inr v => .ok v
  | .inl s =>
    match coerceTideType s with
    | some v => .ok v
    | none => .error .valueError

/-- Lines 232-233: `prediction_limit = float(prediction_limit)`. -/
def coerce_pred_limit (t : Sum String Rat) : Except PyError Rat :=
  match t with
  | .inr v => .ok v
  | .inl s =>
    match parseDecimal? s with
    | some v => .ok v
    | none => .error .valueError

/-- Lines 235-236: `day_filter = DayFilter(day_filter)`. -/
def coerce_day_filter (t : Sum String DayFilter) : Except PyError DayFilter :=
  match t with
  | .inr v => .ok v
  | .inl s =>
    match coerceDayFilter s with
    | some v => .ok v
    | none => .error .valueError

/-- Lines 238-239: `hours_filter = HoursFilter(hours_filter)`. -/
def coerce_hours_filter (t : Sum String HoursFilter) :
    Except PyError HoursFilter :=
  match t with
  | .inr v => .ok v
  | .inl s =>
    match coerceHoursFilter s with
    | some v => .ok v
    | none => .error .valueError

/-- `CURRENT_YEAR = datetime.now().year` (line 18): the year of the naive
server-local clock reading taken once at module import, supplied here as
the naive epoch-second reading `serverNaiveNow`. -/
def CURRENT_YEAR (serverNaiveNow : Int) : Int :=
  yearOfNaiveEpoch serverNaiveNow

/-- Year resolution: the default parameter value `CURRENT_YEAR` (line 215)
when the caller omits `year`, and the coercion `year = int(year)` of lines
269-270 when a string is passed. -/
def resolve_year (year : Option (Sum String Int)) (serverNaiveNow : Int) :
    Except PyError Int :=
  match year.getD (Sum.inr (CURRENT_YEAR serverNaiveNow)) with
  | Sum.inr y => .ok y
  | Sum.inl s =>
    match pyInt? s with
    | some y => .ok y
    | none => .error .valueError

/-! ## The filter predicates of `find_tides` (lines 241-267, 289-294) -/

/-- `filter_tide_type(value)` (lines 241-242):
`tide_type.value[0].lower() == value`. -/
def filter_tide_type (tide_type : TideType) (value : String) : Bool :=
  pyLower (strTake1 tide_type.value) == value

/-- `filter_day(date)` (lines 244-251). -/
def filter_day (day_filter : DayFilter) (y m d : Int) : Bool :=
  match day_filter with
  | .any => true
  | .weekday => weekday y m d ≤ 4
  | .weekend => 5 ≤ weekday y m d

/-- `filter_hours(date, daylight_obj)` (lines 253-267). -/
def filter_hours (hours_filter : HoursFilter) (date_ts : Int)
    (daylight_obj : Daylight) : Bool :=
  match hours_filter with
  | .day => daylight_obj.sunrise ≤ date_ts && date_ts ≤ daylight_obj.sunset
  | .day_1 =>
    daylight_obj.sunrise - ONE_HOUR ≤ date_ts
      && date_ts ≤ daylight_obj.sunset + ONE_HOUR
  | .night => date_ts < daylight_obj.sunrise || daylight_obj.sunset < date_ts
  | .anytime => true

/-! ## The row loop of `find_tides` (lines 277-303) -/

/-- One raw row after the parsing prefix of the loop body (lines 278-287):
field values, the localized timestamp, the `strftime` key, and the looked
up daylight record. -/
structure ParsedRow where
  y : Int
  m : Int
  d : Int
  hour : Int
  minute : Int
  pred : Rat
  hl : String
  key : String
  ts : Int
  daylight : Daylight
deriving DecidableEq, Repr

/-- Sequence `int(part)` over the parts of a split field (the list
comprehensions of lines 280-281). -/
def mapPyInt : List String → Except PyError (List Int)
  | [] => .ok []
  | p :: ps =>
    match pyInt? p with
    | none => .error .valueError
    | some v =>
      match mapPyInt ps with
      | .error e => .error e
      | .ok vs => .ok (v :: vs)

/-- The parsing prefix of the loop body (lines 278-287), in source order:
unpack the 9 fields, `float` the prediction, `int` the date and time
parts, `assert hl in ["H", "L"]`, localize the naive datetime, and look
the date up in the daylight map (`KeyError` when absent). -/
def parseRow (tz : Tz) (daylight : List (String × Daylight))
    (row : List String) : Except PyError ParsedRow :=
  match row with
  | [date, _dow, time, pred_, _f5, _f6, _f7, _f8, hl] =>
    match parseDecimal? pred_ with
    | none => .error .valueError
    | some pred =>
      match mapPyInt (splitOnChar '/' date) with
      | .error e => .error e
      | .ok dparts =>
        match dparts with
        | [y, m, d] =>
          match mapPyInt (splitOnChar ':' time) with
          | .error e => .error e
          | .ok tparts =>
            match tparts with
            | [h, mi] =>
              if hl = "H" ∨ hl = "L" then
                match mkDatetimeEpoch tz y m d h mi with
                | .error e => .error e
                | .ok (key, ts) =>
                  match List.lookup date daylight with
                  | none => .error .keyError
                  | some dlo =>
                    .ok ⟨y, m, d, h, mi, pred, hl, key, ts, dlo⟩
              else .error .assertionError
            | _ => .error .valueError
        | _ => .error .valueError
  | _ => .error .valueError

/-- The compound filter condition of lines 289-294, over a parsed row. -/
def keep (tide_type : TideType) (prediction_limit : Rat)
    (day_filter : DayFilter) (hours_filter : HoursFilter)
    (p : ParsedRow) : Bool :=
  filter_tide_type tide_type (pyLower p.hl)
    && decide (p.pred < prediction_limit)
    && filter_day day_filter p.y p.m p.d
    && filter_hours hours_filter p.ts p.daylight

/-- The `Tide` record appended at lines 295-303 (`TideType(hl)` on a flag
that already passed the assert). -/
def mkTide (p : ParsedRow) : Tide :=
  { date := p.key
    tide_type := if p.hl == "H" then .high else .low
    tide := p.ts
    prediction := p.pred
    daylight := p.daylight }

/-- One iteration of the loop: parse, then keep or drop. -/
def processRow (tz : Tz) (daylight : List (String × Daylight))
    (tide_type : TideType) (prediction_limit : Rat)
    (day_filter : DayFilter) (hours_filter : HoursFilter)
    (row : List String) : Except PyError (Option Tide) :=
  match parseRow tz daylight row with
  | .error e => .error e
  | .ok p =>
    .ok (if keep tide_type prediction_limit day_filter hours_filter p then
      some (mkTide p) else none)

/-- The whole loop of lines 275-303: rows in file order, every raised
exception aborting the call. -/
def processRows (tz : Tz) (daylight : List (String × Daylight))
    (tide_type : TideType) (prediction_limit : Rat)
    (day_filter : DayFilter) (hours_filter : HoursFilter) :
    List (List String) → Except PyError (List Tide)
  | [] => .ok []
  | row :: rest =>
    match processRow tz daylight tide_type prediction_limit day_filter
        hours_filter row with
    | .error e => .error e
    | .ok none =>
      processRows tz daylight tide_type prediction_limit day_filter
        hours_filter rest
    | .ok (some t) =>
      match processRows tz daylight tide_type prediction_limit day_filter
          hours_filter rest with
      | .error e => .error e
      | .ok ts => .ok (t :: ts)

/-- Specification-side decomposition: parse every row first (same parsing
function, same first-error semantics), used to restate the loop as parse
then filter then map. -/
def parseAll (tz : Tz) (daylight : List (String × Daylight)) :
    List (List String) → Except PyError (List ParsedRow)
  | [] => .ok []
  | row :: rest =>
    match parseRow tz daylight row with
    | .error e => .error e
    | .ok p =>
      match parseAll tz daylight rest with
      | .error e => .error e
      | .ok ps => .ok (p :: ps)

/-! ## `find_tides` end to end (lines 213-305) -/

/-- `find_tides(...)` (lines 213-305) over the explicit cache state, in
source order: station directory retrieval first (line 224), then argument
coercions (lines 226-239), year coercion (lines 269-270), the daylight
retrieval (line 272), the tide feed retrieval (line 277) and the filter
loop.  Returns the result or exception, the cache state after the call,
and the number of network fetches performed. -/
def find_tides_sys (pst : String → List Station)
    (pdl : String → Except PyError DaylightDoc) (fetch : String → String)
    (a : Args) (serverNaiveNow : Int) (c : CacheState) :
    Except PyError FindResult × CacheState × Nat :=
  let r1 := get_stations pst fetch c
  match resolve_station r1.1 a.station with
  | .error e => (.error e, r1.2.1, r1.2.2)
  | .ok station =>
    match coerce_tide_type a.tide_type with
    | .error e => (.error e, r1.2.1, r1.2.2)
    | .ok tide_type =>
      match coerce_pred_limit a.prediction_limit with
      | .error e => (.error e, r1.2.1, r1.2.2)
      | .ok prediction_limit =>
        match coerce_day_filter a.day_filter with
        | .error e => (.error e, r1.2.1, r1.2.2)
        | .ok day_filter =>
          match coerce_hours_filter a.hours_filter with
          | .error e => (.error e, r1.2.1, r1.2.2)
          | .ok hours_filter =>
            match resolve_year a.year serverNaiveNow with
            | .error e => (.error e, r1.2.1, r1.2.2)
            | .ok year =>
              let r2 := get_daylight pdl fetch station year r1.2.1
              match r2.1 with
              | .error e => (.error e, r2.2.1, r1.2.2 + r2.2.2)
              | .ok dlinfo =>
                let r3 := get_tides fetch station year r2.2.1
                match processRows dlinfo.tz dlinfo.daylight tide_type
                    prediction_limit day_filter hours_filter r3.1 with
                | .error e =>
                  (.error e, r3.2.1, r1.2.2 + r2.2.2 + r3.2.2)
                | .ok tides =>
                  (.ok ⟨tides, dlinfo.tz.zone⟩, r3.2.1,
                    r1.2.2 + r2.2.2 + r3.2.2)

/-- Modelled from the spec: the spec's intended default year -- "the
current calendar year evaluated in the station's local timezone", i.e. the
year of the call-time instant localized to the station's zone (given here
by its UTC offset in seconds).  The repository has no such computation;
this definition follows the spec's words for comparison with
`CURRENT_YEAR`. -/
def spec_default_year (callUtcEpoch stationUtcOffset : Int) : Int :=
  yearOfNaiveEpoch (callUtcEpoch + stationUtcOffset)

/-! ## Theorems -/

/-- C3: the hours-of-day filter's window semantics (`filter_hours`, lines
253-267): DAY passes iff sunrise <= ts <= sunset, both bounds inclusive;
DAY_PLUS_ONE_HOUR passes iff sunrise - 3600 <= ts <= sunset + 3600, and
its window is exactly the DAY window expanded by 3600 seconds (one
`ONE_HOUR`) on each side; NIGHT passes iff ts is strictly before sunrise
or strictly after sunset; ANYTIME always passes. -/
theorem filter_hours_window_semantics (ts : Int) (dl : Daylight) :
    (filter_hours .day ts dl = true ↔ dl.sunrise ≤ ts ∧ ts ≤ dl.sunset)
    ∧ (filter_hours .day_1 ts dl = true ↔
        dl.sunrise - 3600 ≤ ts ∧ ts ≤ dl.sunset + 3600)
    ∧ (filter_hours .day_1 ts dl
        = filter_hours .day ts ⟨dl.sunrise - 3600, dl.sunset + 3600⟩)
    ∧ (filter_hours .night ts dl = true ↔ ts < dl.sunrise ∨ dl.sunset < ts)
    ∧ filter_hours .anytime ts dl = true := by
  simp [filter_hours, ONE_HOUR]

/-- C1: the filter loop of `find_tides` (lines 277-303) is exactly "parse
every row in file order, keep precisely those on which the four predicates
hold, build a `Tide` from each kept row": the loop's outcome equals
parsing all rows (with the loop's first-error semantics) followed by
`List.filter` with the conjunction of the four predicates and `List.map`
of the record builder.  `List.filter` keeps every row satisfying `keep`,
drops every row failing it, and preserves the input order. -/
theorem find_tides_loop_is_filter (tz : Tz)
    (dl : List (String × Daylight)) (tt : TideType) (pl : Rat)
    (df : DayFilter) (hf : HoursFilter) (rows : List (List String)) :
    processRows tz dl tt pl df hf rows
      = (parseAll tz dl rows).map
          (fun ps => (ps.filter (keep tt pl df hf)).map mkTide) := by
  induction rows with
  | nil => rfl
  | cons r rs ih =>
    simp only [processRows, parseAll, processRow]
    cases hp : parseRow tz dl r with
    | error e => simp [Except.map]
    | ok p =>
      simp only
      rw [ih]
      cases hq : parseAll tz dl rs with
      | error e =>
        cases hk : keep tt pl df hf p with
        | true => simp [hk, Except.map]
        | false => simp [hk, Except.map]
      | ok ps =>
        cases hk : keep tt pl df hf p with
        | true => simp [hk, Except.map, List.filter_cons]
        | false => simp [hk, Except.map, List.filter_cons]

/-- C2: the prediction filter of line 291 is the strict comparison
`pred < prediction_limit`: an emitted `Tide` always has its prediction
strictly below the limit, and a parsed row whose prediction is greater
than or equal to the limit (in particular exactly equal) is dropped --
for every selected tide type, so the same strict upper bound applies
whether `tide_type` is LOW or HIGH. -/
theorem prediction_filter_strict (tz : Tz) (dl : List (String × Daylight))
    (tt : TideType) (pl : Rat) (df : DayFilter) (hf : HoursFilter)
    (row : List String) (t : Tide) (p : ParsedRow) :
    (processRow tz dl tt pl df hf row = .ok (some t) → t.prediction < pl)
    ∧ (parseRow tz dl row = .ok p → pl ≤ p.pred →
        processRow tz dl tt pl df hf row = .ok none) := by
  constructor
  · intro h
    unfold processRow at h
    cases hp : parseRow tz dl row with
    | error e => rw [hp] at h; cases h
    | ok q =>
      rw [hp] at h
      simp only at h
      cases hk : keep tt pl df hf q with
      | false => rw [hk] at h; simp at h
      | true =>
        rw [hk] at h
        simp at h
        unfold keep at hk
        simp only [Bool.and_eq_true, decide_eq_true_eq] at hk
        rw [← h]
        exact hk.1.1.2
  · intro hp hle
    have hb : decide (p.pred < pl) = false := decide_eq_false (not_lt.mpr hle)
    have hk : keep tt pl df hf p = false := by
      unfold keep
      rw [hb]
      simp
    unfold processRow
    rw [hp]
    simp [hk]

/-- C2 witness: a concrete row with prediction -1.20 against the limit
-2.0 parses and is dropped (since -1.20 is not below -2.0). -/
theorem prediction_filter_strict_witness :
    processRow ⟨"Etc/UTC", fun _ _ _ _ _ => 1000⟩
      [("2024/06/01", ⟨900, 1100⟩)] .low (-2) .any .anytime
      ["2024/06/01", "Sat", "06:10", "-1.20", "", "", "", "ft", "L"]
      = .ok none := by
  exact (prediction_filter_strict ⟨"Etc/UTC", fun _ _ _ _ _ => 1000⟩
    [("2024/06/01", ⟨900, 1100⟩)] .low (-2) .any .anytime
    ["2024/06/01", "Sat", "06:10", "-1.20", "", "", "", "ft", "L"]
    ⟨"", .low, 0, 0, ⟨0, 0⟩⟩
    ⟨2024, 6, 1, 6, 10, mkRat (-120) 100, "L", "2024/06/01", 1000,
      ⟨900, 1100⟩⟩).2
    (by decide) (by decide)

/-- A raw row whose final (high/low flag) field is neither "H" nor "L"
never parses: some exception is raised before it could be emitted or
skipped (at the latest the `assert hl in ["H", "L"]` of line 284). -/
theorem parseRow_bad_flag (tz : Tz) (dl : List (String × Daylight))
    (f1 f2 f3 f4 f5 f6 f7 f8 hl : String)
    (h1 : hl ≠ "H") (h2 : hl ≠ "L") :
    ∃ e, parseRow tz dl [f1, f2, f3, f4, f5, f6, f7, f8, hl] = .error e := by
  simp only [parseRow]
  repeat' split
  any_goals exact ⟨_, rfl⟩
  all_goals exact absurd ‹hl = "H" ∨ hl = "L"› (by simp [h1, h2])

/-- If any row of the feed fails, the whole loop fails (first-error
semantics of the `for` loop). -/
theorem processRows_error_of_mem (tz : Tz) (dl : List (String × Daylight))
    (tt : TideType) (pl : Rat) (df : DayFilter) (hf : HoursFilter)
    (rows : List (List String)) (row : List String)
    (hmem : row ∈ rows)
    (herr : ∃ e, processRow tz dl tt pl df hf row = .error e) :
    ∃ e, processRows tz dl tt pl df hf rows = .error e := by
  induction rows with
  | nil => cases hmem
  | cons r rs ih =>
    rcases List.mem_cons.mp hmem with h | h
    · subst h
      obtain ⟨e, he⟩ := herr
      exact ⟨e, by simp [processRows, he]⟩
    · cases hp : processRow tz dl tt pl df hf r with
      | error e => exact ⟨e, by simp [processRows, hp]⟩
      | ok o =>
        obtain ⟨e, he⟩ := ih h
        cases o with
        | none => exact ⟨e, by simp [processRows, hp, he]⟩
        | some t => exact ⟨e, by simp [processRows, hp, he]⟩

/-- C8: any input containing a tide row whose high/low flag is not exactly
"H" or "L" makes the tide parsing path raise a fatal error (at the latest
the assertion of line 284) instead of skipping the row or returning a
partial result; and a completely empty body (nothing after the preamble
and header) yields the empty sequence, not an error. -/
theorem malformed_flag_is_fatal :
    (∀ (tz : Tz) (dl : List (String × Daylight)) (tt : TideType) (pl : Rat)
      (df : DayFilter) (hf : HoursFilter) (rows : List (List String))
      (f1 f2 f3 f4 f5 f6 f7 f8 hl : String),
      [f1, f2, f3, f4, f5, f6, f7, f8, hl] ∈ rows → hl ≠ "H" → hl ≠ "L" →
      ∃ e, processRows tz dl tt pl df hf rows = .error e)
    ∧ (∀ (tz : Tz) (dl : List (String × Daylight)) (tt : TideType)
        (pl : Rat) (df : DayFilter) (hf : HoursFilter),
        processRows tz dl tt pl df hf [] = .ok [])
    ∧ get_tides_rows "NOAA preamble\n\nDate Day Time Pred High/Low\n" = [] := by
  refine ⟨?_, ?_, ?_⟩
  · intro tz dl tt pl df hf rows f1 f2 f3 f4 f5 f6 f7 f8 hl hmem hH hL
    refine processRows_error_of_mem tz dl tt pl df hf rows _ hmem ?_
    obtain ⟨e, he⟩ := parseRow_bad_flag tz dl f1 f2 f3 f4 f5 f6 f7 f8 hl hH hL
    exact ⟨e, by simp [processRow, he]⟩
  · intro tz dl tt pl df hf
    rfl
  · decide

/-- C8 witness: a concrete feed row flagged "X" aborts the loop with an
error. -/
theorem malformed_flag_is_fatal_witness :
    ∃ e, processRows ⟨"Etc/UTC", fun _ _ _ _ _ => 0⟩ [] .low 0 .any .day
      [["2024/06/01", "Sat", "06:10", "-1.20", "", "", "", "ft", "X"]]
      = .error e :=
  malformed_flag_is_fatal.1 ⟨"Etc/UTC", fun _ _ _ _ _ => 0⟩ [] .low 0 .any
    .day [["2024/06/01", "Sat", "06:10", "-1.20", "", "", "", "ft", "X"]]
    "2024/06/01" "Sat" "06:10" "-1.20" "" "" "" "ft" "X"
    (by simp) (by decide) (by decide)

/-- Two tide-type arguments that coerce identically make `find_tides`
behave identically (the coerced value is all the rest of the call uses). -/
theorem find_tides_sys_tide_type_congr (pst : String → List Station)
    (pdl : String → Except PyError DaylightDoc) (fetch : String → String)
    (st : Sum String Station) (yr : Option (Sum String Int))
    (t1 t2 : Sum String TideType) (pl : Sum String Rat)
    (df : Sum String DayFilter) (hf : Sum String HoursFilter)
    (now : Int) (c : CacheState)
    (h : coerce_tide_type t1 = coerce_tide_type t2) :
    find_tides_sys pst pdl fetch ⟨st, yr, t1, pl, df, hf⟩ now c
      = find_tides_sys pst pdl fetch ⟨st, yr, t2, pl, df, hf⟩ now c := by
  unfold find_tides_sys
  rw [h]

/-- C9: passing the alias "L" and the word "low" (likewise "H" and
"high") to `find_tides` with all other arguments equal produces identical
outcomes, because both coerce to the same `TideType`; and the flag
predicate of lines 241-242 compares the lowercase first character of the
selected type's value with the lowercase flag, so it matches the row flag
case-insensitively. -/
theorem tide_type_alias_equivalence :
    (∀ (pst : String → List Station)
      (pdl : String → Except PyError DaylightDoc) (fetch : String → String)
      (st : Sum String Station) (yr : Option (Sum String Int))
      (pl : Sum String Rat) (df : Sum String DayFilter)
      (hf : Sum String HoursFilter) (now : Int) (c : CacheState),
      find_tides_sys pst pdl fetch ⟨st, yr, .inl "L", pl, df, hf⟩ now c
        = find_tides_sys pst pdl fetch ⟨st, yr, .inl "low", pl, df, hf⟩ now c)
    ∧ (∀ (pst : String → List Station)
      (pdl : String → Except PyError DaylightDoc) (fetch : String → String)
      (st : Sum String Station) (yr : Option (Sum String Int))
      (pl : Sum String Rat) (df : Sum String DayFilter)
      (hf : Sum String HoursFilter) (now : Int) (c : CacheState),
      find_tides_sys pst pdl fetch ⟨st, yr, .inl "H", pl, df, hf⟩ now c
        = find_tides_sys pst pdl fetch ⟨st, yr, .inl "high", pl, df, hf⟩ now c)
    ∧ (∀ (tt : TideType) (hl : String), hl = "H" ∨ hl = "L" →
        filter_tide_type tt (pyLower hl)
          = (pyLower (strTake1 tt.value) == pyLower (strTake1 hl))) := by
  refine ⟨?_, ?_, ?_⟩
  · intro pst pdl fetch st yr pl df hf now c
    exact find_tides_sys_tide_type_congr pst pdl fetch st yr _ _ pl df hf
      now c (by decide)
  · intro pst pdl fetch st yr pl df hf now c
    exact find_tides_sys_tide_type_congr pst pdl fetch st yr _ _ pl df hf
      now c (by decide)
  · intro tt hl h
    rcases h with h | h <;> subst h <;> cases tt <;> decide

/-- C9 witness: the flag-matching conjunct evaluated at LOW against the
uppercase flag "L" (the filter succeeds on the lowered flag). -/
theorem tide_type_alias_equivalence_witness :
    filter_tide_type .low (pyLower "L")
      = (pyLower (strTake1 TideType.low.value) == pyLower (strTake1 "L")) :=
  tide_type_alias_equivalence.2.2 .low "L" (Or.inr rfl)

/-- C10: acceptance of the single-letter tide-type aliases at the public
interface is case-sensitive: coercion maps exactly "low", "high", "L" and
"H" to members, while "l", "h" and every other string raise `ValueError`
during the input normalization of `find_tides` (lines 229-230) -- even
though flag matching inside the filter is case-insensitive. -/
theorem tide_type_alias_only_uppercase :
    coerceTideType "L" = some .low ∧ coerceTideType "H" = some .high
    ∧ coerceTideType "l" = none ∧ coerceTideType "h" = none
    ∧ (∀ s : String, s ≠ "low" → s ≠ "high" → s ≠ "L" → s ≠ "H" →
        coerceTideType s = none)
    ∧ (∀ s : String, coerceTideType s = none →
        coerce_tide_type (Sum.inl s) = .error .valueError) := by
  refine ⟨by decide, by decide, by decide, by decide, ?_, ?_⟩
  · intro s h1 h2 h3 h4
    simp [coerceTideType, h1, h2, h3, h4]
  · intro s h
    simp [coerce_tide_type, h]

/-- C10 witness: the lowercase alias "l" is rejected with `ValueError` by
the normalization step. -/
theorem tide_type_alias_only_uppercase_witness :
    coerceTideType "hello" = none
    ∧ coerce_tide_type (Sum.inl "l") = .error .valueError :=
  ⟨tide_type_alias_only_uppercase.2.2.2.2.1 "hello" (by decide) (by decide)
      (by decide) (by decide),
    tide_type_alias_only_uppercase.2.2.2.2.2 "l"
      tide_type_alias_only_uppercase.2.2.1⟩

/-- A cache hit: when the path already exists, `retrieve_url_and_cache`
performs no fetch and leaves the cache untouched. -/
theorem retrieve_hit (fetch : String → String) (url path : String)
    (c : CacheState) (h : (List.lookup path c).isSome) :
    retrieve_url_and_cache fetch url path c = (c, 0) := by
  unfold retrieve_url_and_cache
  simp [h]

/-- A cache miss: the fetched body is persisted verbatim under the path
and exactly one fetch is performed. -/
theorem retrieve_miss (fetch : String → String) (url path : String)
    (c : CacheState) (h : List.lookup path c = none) :
    retrieve_url_and_cache fetch url path c = (c ++ [(path, fetch url)], 1) := by
  unfold retrieve_url_and_cache
  simp [h]

/-- `get_stations` on a populated cache: no fetch, cache untouched. -/
theorem get_stations_hit (pst : String → List Station)
    (fetch : String → String) (c : CacheState)
    (h : (List.lookup stations_cached_file c).isSome) :
    get_stations pst fetch c
      = (sortStations (pst (contentsOf c stations_cached_file)), c, 0) := by
  unfold get_stations
  rw [retrieve_hit fetch stations_url stations_cached_file c h]

/-- `get_daylight` on a populated cache: no fetch, cache untouched. -/
theorem get_daylight_hit (pdl : String → Except PyError DaylightDoc)
    (fetch : String → String) (station : Station) (year : Int)
    (c : CacheState)
    (h : (List.lookup (daylight_cached_file station year) c).isSome) :
    ∃ q, get_daylight pdl fetch station year c = (q, c, 0) := by
  unfold get_daylight
  rw [retrieve_hit fetch (daylight_url station year)
    (daylight_cached_file station year) c h]
  dsimp only
  repeat' split
  all_goals exact ⟨_, rfl⟩

/-- `get_tides` on a populated cache: no fetch, cache untouched. -/
theorem get_tides_hit (fetch : String → String) (station : Station)
    (year : Int) (c : CacheState)
    (h : (List.lookup (tides_cached_file station year) c).isSome) :
    get_tides fetch station year c
      = (get_tides_rows (contentsOf c (tides_cached_file station year)),
        c, 0) := by
  unfold get_tides
  rw [retrieve_hit fetch (tides_url station year)
    (tides_cached_file station year) c h]

/-- A `find_tides` call whose three cache files are all present performs
no fetch and leaves the cache exactly as it was. -/
theorem find_tides_sys_all_hit (pst : String → List Station)
    (pdl : String → Except PyError DaylightDoc) (fetch : String → String)
    (a : Args) (now : Int) (c : CacheState)
    (hs : (List.lookup stations_cached_file c).isSome)
    (hpaths : ∀ st y,
      resolve_station (get_stations pst fetch c).1 a.station = .ok st →
      resolve_year a.year now = .ok y →
      (List.lookup (daylight_cached_file st y) c).isSome
        ∧ (List.lookup (tides_cached_file st y) c).isSome) :
    ∃ r, find_tides_sys pst pdl fetch a now c = (r, c, 0) := by
  have h1 := get_stations_hit pst fetch c hs
  unfold find_tides_sys
  rw [h1]
  dsimp only
  cases hst : resolve_station
      (sortStations (pst (contentsOf c stations_cached_file))) a.station with
  | error e => exact ⟨_, rfl⟩
  | ok station =>
    have hst2 : resolve_station (get_stations pst fetch c).1 a.station
        = .ok station := by rw [h1]; exact hst
    cases coerce_tide_type a.tide_type with
    | error e => exact ⟨_, rfl⟩
    | ok tide_type =>
      cases coerce_pred_limit a.prediction_limit with
      | error e => exact ⟨_, rfl⟩
      | ok prediction_limit =>
        cases coerce_day_filter a.day_filter with
        | error e => exact ⟨_, rfl⟩
        | ok day_filter =>
          cases coerce_hours_filter a.hours_filter with
          | error e => exact ⟨_, rfl⟩
          | ok hours_filter =>
            cases hyr : resolve_year a.year now with
            | error e => exact ⟨_, rfl⟩
            | ok year =>
              obtain ⟨hdl, htd⟩ := hpaths station year hst2 hyr
              obtain ⟨q, hq⟩ := get_daylight_hit pdl fetch station year c hdl
              dsimp only
              rw [hq]
              dsimp only
              cases q with
              | error e => exact ⟨.error e, by simp⟩
              | ok dlinfo =>
                rw [get_tides_hit fetch station year c htd]
                dsimp only
                cases hpr : processRows dlinfo.tz dlinfo.daylight tide_type
                    prediction_limit day_filter hours_filter
                    (get_tides_rows
                      (contentsOf c (tides_cached_file station year))) with
                | error e => exact ⟨.error e, by simp⟩
                | ok tides => exact ⟨.ok ⟨tides, dlinfo.tz.zone⟩, by simp⟩

/-- C4: the cache is a write-once memoization.  If a file exists under a
key, `retrieve_url_and_cache` performs no fetch and leaves the cache (in
particular that file's contents) unmodified; otherwise it fetches exactly
once and persists the fetched body verbatim under the key.  Consequently
a `find_tides` call whose three cache files are present fetches nothing,
leaves the cache unchanged, and a second identical call returns the
identical outcome. -/
theorem cache_write_once_memoization :
    (∀ (fetch : String → String) (url path : String) (c : CacheState),
      (List.lookup path c).isSome →
      retrieve_url_and_cache fetch url path c = (c, 0))
    ∧ (∀ (fetch : String → String) (url path : String) (c : CacheState),
      List.lookup path c = none →
      retrieve_url_and_cache fetch url path c
        = (c ++ [(path, fetch url)], 1))
    ∧ (∀ (pst : String → List Station)
        (pdl : String → Except PyError DaylightDoc)
        (fetch : String → String) (a : Args) (now : Int) (c : CacheState),
        (List.lookup stations_cached_file c).isSome →
        (∀ st y,
          resolve_station (get_stations pst fetch c).1 a.station = .ok st →
          resolve_year a.year now = .ok y →
          (List.lookup (daylight_cached_file st y) c).isSome
            ∧ (List.lookup (tides_cached_file st y) c).isSome) →
        (find_tides_sys pst pdl fetch a now c).2.1 = c
        ∧ (find_tides_sys pst pdl fetch a now c).2.2 = 0
        ∧ find_tides_sys pst pdl fetch a now
            ((find_tides_sys pst pdl fetch a now c).2.1)
          = find_tides_sys pst pdl fetch a now c) := by
  refine ⟨retrieve_hit, retrieve_miss, ?_⟩
  intro pst pdl fetch a now c hs hpaths
  obtain ⟨r, hr⟩ := find_tides_sys_all_hit pst pdl fetch a now c hs hpaths
  have h21 : (find_tides_sys pst pdl fetch a now c).2.1 = c := by rw [hr]
  refine ⟨h21, by rw [hr], ?_⟩
  rw [h21]

/-- Concrete fixture: a station record. -/
def wStation : Station := ⟨"Seattle", "WA", "9447130", "SEW", "47.6", "-122.3"⟩

/-- Concrete fixture: a station directory extraction returning one row. -/
def wPst : String → List Station := fun _ => [wStation]

/-- Concrete fixture: a daylight document extraction (its outcome is
irrelevant to the cache behavior being witnessed). -/
def wPdl : String → Except PyError DaylightDoc := fun _ => .error .valueError

/-- Concrete fixture: a network fetch returning an empty body. -/
def wFetch : String → String := fun _ => ""

/-- Concrete fixture: a full argument set with every coercion exercised. -/
def wArgs : Args :=
  ⟨.inl "9447130", some (.inr 2024), .inl "low", .inl "0.0", .inl "any",
    .inl "anytime"⟩

/-- Concrete fixture: a cache holding all three files the fixture call
resolves to. -/
def wCache : CacheState :=
  [(stations_cached_file, ""), (daylight_cached_file wStation 2024, ""),
    (tides_cached_file wStation 2024, "")]

/-- C4 witness: on the concrete populated cache, the call fetches
nothing, leaves the cache unchanged, and repeating it gives the identical
outcome. -/
theorem cache_write_once_memoization_witness :
    (find_tides_sys wPst wPdl wFetch wArgs 0 wCache).2.1 = wCache
    ∧ (find_tides_sys wPst wPdl wFetch wArgs 0 wCache).2.2 = 0
    ∧ find_tides_sys wPst wPdl wFetch wArgs 0
        ((find_tides_sys wPst wPdl wFetch wArgs 0 wCache).2.1)
      = find_tides_sys wPst wPdl wFetch wArgs 0 wCache := by
  refine cache_write_once_memoization.2.2 wPst wPdl wFetch wArgs 0 wCache
    (by decide) ?_
  intro st y hst hyr
  have hres : resolve_station (get_stations wPst wFetch wCache).1
      wArgs.station = .ok wStation := by decide
  have hy : resolve_year wArgs.year 0 = .ok 2024 := by decide
  have hst2 : st = wStation := by
    have h2 := hres.symm.trans hst
    exact (Except.ok.inj h2).symm
  have hy2 : y = 2024 := by
    have h2 := hy.symm.trans hyr
    exact (Except.ok.inj h2).symm
  subst hst2
  subst hy2
  exact ⟨by decide, by decide⟩

/-- C5 (amended): when `year` is omitted, `find_tides` falls back on the
module-level `CURRENT_YEAR` (line 18), which is the calendar year of the
naive server-local clock reading taken once at module import -- not a
value localized to the station's timezone, and not evaluated at call
time.  An explicitly passed year is used as given. -/
theorem default_year_from_module_import (serverNaiveNow : Int) (y : Int) :
    resolve_year Option.none serverNaiveNow
      = .ok (CURRENT_YEAR serverNaiveNow)
    ∧ CURRENT_YEAR serverNaiveNow = yearOfNaiveEpoch serverNaiveNow
    ∧ resolve_year (some (Sum.inr y)) serverNaiveNow = .ok y :=
  ⟨rfl, rfl, rfl⟩

/-- C5 counterexample: at the instant 2025-01-01 00:30:00 UTC (epoch
1735691400) on a server whose local clock reads UTC, the code's default
year is 2025, while the spec's "current calendar year evaluated in the
station's local timezone" for a UTC-8 station (offset -28800 seconds) is
still 2024 -- the station's local time is 2024-12-31 16:30.  So the
default is not the station-local current year. -/
theorem default_year_counterexample :
    resolve_year Option.none 1735691400 = .ok 2025
    ∧ spec_default_year 1735691400 (-28800) = 2024
    ∧ resolve_year Option.none 1735691400
        ≠ .ok (spec_default_year 1735691400 (-28800)) := by
  exact ⟨by decide, by decide, by decide⟩

/-- C6 (amended): an unparseable `tide_type` string makes `find_tides`
fail with `ValueError` during input normalization (lines 229-230), before
the daylight and tide-feed retrievals -- but after the station directory
retrieval of line 224, which may itself fetch over the network when the
stations cache file is cold.  The call's outcome is exactly the station
retrieval's cache effect and fetch count together with the error. -/
theorem tide_type_validation_after_station_retrieval
    (pst : String → List Station)
    (pdl : String → Except PyError DaylightDoc) (fetch : String → String)
    (a : Args) (now : Int) (c : CacheState) (s : String) (st : Station)
    (hstr : a.tide_type = Sum.inl s) (hbad : coerceTideType s = none)
    (hres : resolve_station (get_stations pst fetch c).1 a.station
      = .ok st) :
    find_tides_sys pst pdl fetch a now c
      = (.error .valueError, (get_stations pst fetch c).2.1,
        (get_stations pst fetch c).2.2) := by
  unfold find_tides_sys
  dsimp only
  rw [hres, hstr]
  dsimp only
  unfold coerce_tide_type
  dsimp only
  rw [hbad]

/-- C6 counterexample: with a cold cache, the invalid `tide_type` "xyz"
does surface as `ValueError`, but only after one network fetch (the
station directory) has already been performed -- refuting "no fetch of
any URL, cached or not, precedes the failure". -/
theorem tide_type_validation_counterexample :
    (find_tides_sys wPst wPdl wFetch
        ⟨.inl "9447130", some (.inr 2024), .inl "xyz", .inr 0, .inr .any,
          .inr .day⟩ 0 []).1 = .error .valueError
    ∧ (find_tides_sys wPst wPdl wFetch
        ⟨.inl "9447130", some (.inr 2024), .inl "xyz", .inr 0, .inr .any,
          .inr .day⟩ 0 []).2.2 = 1 := by
  exact ⟨by decide, by decide⟩

/-- C6 witness: with the stations file cached, the invalid `tide_type`
fails with `ValueError` and the cache and fetch count are exactly those
of the station directory retrieval. -/
theorem tide_type_validation_witness :
    find_tides_sys wPst wPdl wFetch
        ⟨.inl "9447130", some (.inr 2024), .inl "xyz", .inr 0, .inr .any,
          .inr .day⟩ 0 wCache
      = (.error .valueError,
        (get_stations wPst wFetch wCache).2.1,
        (get_stations wPst wFetch wCache).2.2) := by
  refine tide_type_validation_after_station_retrieval wPst wPdl wFetch
    ⟨.inl "9447130", some (.inr 2024), .inl "xyz", .inr 0, .inr .any,
      .inr .day⟩ 0 wCache "xyz" wStation rfl (by decide) (by decide)

/-- What `parse_table` promises about an entry: its key is the formatted
date of a valid (month, day) pair of that year, and its value is the
epoch obtained by localizing the naive (year, month, day, hour, minute)
tuple with the discovered timezone. -/
def CellLocalized (year : Int) (tz : Tz) (p : String × Int) : Prop :=
  ∃ m d h mi, 1 ≤ m ∧ m ≤ 12 ∧ 1 ≤ d
    ∧ p.1 = formatDate year m d ∧ p.2 = tz.localize year m d h mi

/-- Components of a successful `datetime` construction and localization. -/
theorem mkDatetimeEpoch_ok (tz : Tz) (y m d h mi : Int) (key : String)
    (ts : Int) (hok : mkDatetimeEpoch tz y m d h mi = .ok (key, ts)) :
    1 ≤ m ∧ m ≤ 12 ∧ 1 ≤ d ∧ key = formatDate y m d
      ∧ ts = tz.localize y m d h mi := by
  unfold mkDatetimeEpoch at hok
  split at hok
  · rename_i hcond
    have hp := Except.ok.inj hok
    have hk := congrArg Prod.fst hp
    have ht := congrArg Prod.snd hp
    exact ⟨hcond.2.2.1, hcond.2.2.2.1, hcond.2.2.2.2.1, hk.symm, ht.symm⟩
  · cases hok

/-- Membership after a Python dict assignment. -/
theorem mem_dictInsert {α : Type} (l : List (String × α)) (k : String)
    (v : α) (p : String × α) (hp : p ∈ dictInsert l k v) :
    p = (k, v) ∨ p ∈ l := by
  unfold dictInsert at hp
  split at hp
  · obtain ⟨q, hq, heq⟩ := List.mem_map.mp hp
    by_cases h : (q.1 == k) = true
    · rw [if_pos h] at heq
      exact Or.inl heq.symm
    · rw [if_neg h] at heq
      exact Or.inr (heq ▸ hq)
  · rcases List.mem_append.mp hp with h | h
    · exact Or.inr h
    · exact Or.inl (List.mem_singleton.mp h)

/-- A dict assignment with an absent key appends the pair. -/
theorem dictInsert_not_mem {α : Type} (l : List (String × α)) (k : String)
    (v : α) (h : List.lookup k l = none) :
    dictInsert l k v = l ++ [(k, v)] := by
  unfold dictInsert
  simp [h]

/-- Association lookup skips a block in which the key does not occur. -/
theorem lookup_append_left_none {α : Type} (a : String)
    (l1 l2 : List (String × α)) (h : List.lookup a l1 = none) :
    List.lookup a (l1 ++ l2) = List.lookup a l2 := by
  induction l1 with
  | nil => rfl
  | cons q t ih =>
    obtain ⟨k0, v0⟩ := q
    rw [List.cons_append]
    rw [List.lookup] at h ⊢
    cases hq : (a == k0) with
    | true =>
      rw [hq] at h
      dsimp only at h
      cases h
    | false =>
      rw [hq] at h
      dsimp only at h ⊢
      exact ih h

/-- Association lookup through a key-preserving map. -/
theorem lookup_map_keyed {α β : Type} (g : String × α → β)
    (l : List (String × α)) (k : String) (r : α)
    (h : List.lookup k l = some r) :
    List.lookup k (l.map (fun p => (p.1, g p))) = some (g (k, r)) := by
  induction l with
  | nil => cases h
  | cons q t ih =>
    obtain ⟨k0, v0⟩ := q
    rw [List.map_cons]
    rw [List.lookup] at h ⊢
    cases hq : (k == k0) with
    | true =>
      rw [hq] at h
      dsimp only at h ⊢
      have hv : v0 = r := Option.some.inj h
      have hk : k = k0 := eq_of_beq hq
      subst hv
      subst hk
      rfl
    | false =>
      rw [hq] at h
      dsimp only at h ⊢
      exact ih h

/-- Closed form of the date join of lines 171-174 when every sunrise date
has a sunset entry: it appends, in sunrise insertion order, one pair per
sunrise date carrying that date's sunrise and sunset readings. -/
theorem daylight_join_closed (sunset : List (String × Int)) :
    ∀ (sunrise : List (String × Int)) (acc : List (String × Daylight)),
    (∀ p ∈ sunrise, (List.lookup p.1 sunset).isSome) →
    (∀ p ∈ sunrise, List.lookup p.1 acc = none) →
    ((sunrise.map Prod.fst).Nodup) →
    daylight_join sunrise sunset acc
      = .ok (acc ++ sunrise.map (fun p =>
          (p.1, Daylight.mk p.2 ((List.lookup p.1 sunset).getD 0)))) := by
  intro sunrise
  induction sunrise with
  | nil =>
    intro acc _ _ _
    simp [daylight_join]
  | cons q rest ih =>
    intro acc hall hdisj hnd
    obtain ⟨k, r⟩ := q
    have hsk : (List.lookup k sunset).isSome :=
      hall (k, r) (List.mem_cons_self _ _)
    obtain ⟨s, hs⟩ := Option.isSome_iff_exists.mp hsk
    have hnotin : List.lookup k acc = none :=
      hdisj (k, r) (List.mem_cons_self _ _)
    have hnd2 : (k :: rest.map Prod.fst).Nodup := by
      rw [List.map_cons] at hnd
      exact hnd
    have hknotrest : k ∉ rest.map Prod.fst := (List.nodup_cons.mp hnd2).1
    simp only [daylight_join]
    rw [hs]
    dsimp only
    rw [dictInsert_not_mem acc k (Daylight.mk r s) hnotin]
    rw [ih (acc ++ [(k, Daylight.mk r s)]) ?_ ?_ ?_]
    · rw [List.map_cons]
      dsimp only
      rw [hs]
      simp [List.append_assoc]
    · intro p hp
      exact hall p (List.mem_cons_of_mem _ hp)
    · intro p hp
      rw [lookup_append_left_none p.1 acc [(k, Daylight.mk r s)]
        (hdisj p (List.mem_cons_of_mem _ hp))]
      have hne : p.1 ≠ k := by
        intro hcontra
        exact hknotrest (hcontra ▸ List.mem_map_of_mem Prod.fst hp)
      rw [List.lookup]
      rw [beq_eq_false_iff_ne.mpr hne]
      rfl
    · exact (List.nodup_cons.mp hnd2).2

/-- If some sunrise date is absent from the sunset dict, the join of
lines 171-174 raises `KeyError` (regardless of what was already built). -/
theorem daylight_join_missing_sunset (sunset : List (String × Int))
    (k : String) (rv : Int) :
    ∀ (sunrise : List (String × Int)) (acc : List (String × Daylight)),
    (k, rv) ∈ sunrise → List.lookup k sunset = none →
    daylight_join sunrise sunset acc = .error .keyError := by
  intro sunrise
  induction sunrise with
  | nil =>
    intro acc hmem _
    cases hmem
  | cons q rest ih =>
    intro acc hmem hnone
    obtain ⟨k0, r0⟩ := q
    rcases List.mem_cons.mp hmem with h | h
    · have hk : k0 = k := (congrArg Prod.fst h).symm
      subst hk
      simp [daylight_join, hnone]
    · cases hs : List.lookup k0 sunset with
      | none => simp [daylight_join, hs]
      | some s =>
        simp only [daylight_join]
        rw [hs]
        exact ih _ h hnone

/-- Every entry the cell loop of `parse_table` adds is a localized naive
tuple of the table's year, keyed by the formatted date. -/
theorem parse_cells_localized (year : Int) (tz : Tz) (cells : List String) :
    ∀ (times : List (String × Int)) (dom : Option Int) (idx : Nat)
      (times2 : List (String × Int)) (dom2 : Option Int),
    parse_cells year tz times dom idx cells = .ok (times2, dom2) →
    (∀ p ∈ times, CellLocalized year tz p) →
    ∀ p ∈ times2, CellLocalized year tz p := by
  induction cells with
  | nil =>
    intro times dom idx times2 dom2 h hinv
    simp only [parse_cells] at h
    have h1 := Except.ok.inj h
    have ht := congrArg Prod.fst h1
    dsimp only at ht
    rw [← ht]
    exact hinv
  | cons cell rest ih =>
    intro times dom idx times2 dom2 h hinv
    simp only [parse_cells] at h
    split at h
    · exact ih times dom (idx + 1) times2 dom2 h hinv
    · split at h
      · split at h
        · exact Except.noConfusion h
        · exact ih times _ (idx + 1) times2 dom2 h hinv
      · split at h
        · split at h
          · split at h
            · exact Except.noConfusion h
            · split at h
              · exact Except.noConfusion h
              · rename_i hmk
                refine ih _ _ (idx + 1) times2 dom2 h ?_
                intro p hp
                rcases mem_dictInsert _ _ _ p hp with hpe | hpm
                · obtain ⟨hm1, hm2, hd1, hkey, hts⟩ :=
                    mkDatetimeEpoch_ok tz year _ _ _ _ _ _ hmk
                  subst hpe
                  exact ⟨_, _, _, _, hm1, hm2, hd1, hkey, hts⟩
                · exact hinv p hpm
          · exact Except.noConfusion h
        · exact Except.noConfusion h

/-- Row-loop version of the cell invariant. -/
theorem parse_rows_localized (year : Int) (tz : Tz)
    (rows : List (List String)) :
    ∀ (times : List (String × Int)) (dom : Option Int)
      (times2 : List (String × Int)),
    parse_rows year tz rows times dom = .ok times2 →
    (∀ p ∈ times, CellLocalized year tz p) →
    ∀ p ∈ times2, CellLocalized year tz p := by
  induction rows with
  | nil =>
    intro times dom times2 h hinv
    simp only [parse_rows] at h
    rw [← Except.ok.inj h]
    exact hinv
  | cons r rs ih =>
    intro times dom times2 h hinv
    simp only [parse_rows] at h
    split at h
    · exact Except.noConfusion h
    · rename_i out times3 dom3 hcell
      exact ih times3 dom3 times2 h
        (parse_cells_localized year tz r times dom 0 times3 dom3 hcell hinv)

/-- C7 (amended): for tables parsed by `parse_table`, every entry's key is
a formatted date of the table's year and its epoch value is the localized
naive tuple; the join of lines 171-174 then produces, when every sunrise
date also occurs in the sunset dict, exactly one `Daylight` entry per
sunrise date (keys equal to the sunrise keys, no duplicates) pairing that
date's sunrise and sunset epochs -- so dates present only in the sunset
grid yield no entry; but a date present only in the sunrise grid makes
the join raise `KeyError` rather than yielding no entry. -/
theorem daylight_join_semantics :
    (∀ (sunrise sunset : List (String × Int)),
      (∀ p ∈ sunrise, (List.lookup p.1 sunset).isSome) →
      (sunrise.map Prod.fst).Nodup →
      ∃ m, daylight_join sunrise sunset [] = .ok m
        ∧ m.map Prod.fst = sunrise.map Prod.fst
        ∧ (m.map Prod.fst).Nodup
        ∧ ∀ (k : String) (rv sv : Int), List.lookup k sunrise = some rv →
            List.lookup k sunset = some sv →
            List.lookup k m = some (Daylight.mk rv sv))
    ∧ (∀ (sunrise sunset : List (String × Int)) (k : String) (rv : Int),
        (k, rv) ∈ sunrise → List.lookup k sunset = none →
        daylight_join sunrise sunset [] = .error .keyError)
    ∧ (∀ (table : List (List String)) (year : Int) (tz : Tz)
        (times : List (String × Int)),
        parse_table table year tz = .ok times →
        ∀ p ∈ times, CellLocalized year tz p) := by
  refine ⟨?_, ?_, ?_⟩
  · intro sunrise sunset hall hnd
    have hclosed := daylight_join_closed sunset sunrise [] hall
      (fun p _ => rfl) hnd
    have hkeys : (sunrise.map (fun p =>
        (p.1, Daylight.mk p.2 ((List.lookup p.1 sunset).getD 0)))).map
          Prod.fst = sunrise.map Prod.fst := by
      simp [List.map_map, Function.comp]
    refine ⟨sunrise.map (fun p =>
        (p.1, Daylight.mk p.2 ((List.lookup p.1 sunset).getD 0))),
      by simpa using hclosed, hkeys, ?_, ?_⟩
    · rw [hkeys]
      exact hnd
    · intro k rv sv hr hs
      have hlm := lookup_map_keyed
        (fun p => Daylight.mk p.2 ((List.lookup p.1 sunset).getD 0))
        sunrise k rv hr
      rw [hlm]
      simp [hs]
  · intro sunrise sunset k rv hmem hnone
    exact daylight_join_missing_sunset sunset k rv sunrise [] hmem hnone
  · intro table year tz times h
    exact parse_rows_localized year tz table [] none times h
      (fun p hp => (List.not_mem_nil p hp).elim)

/-- C7 witness: a sunrise date with no sunset entry raises `KeyError`. -/
theorem daylight_join_semantics_witness :
    daylight_join [("2024/06/02", 100)] [] [] = .error .keyError :=
  daylight_join_semantics.2.1 [("2024/06/02", 100)] [] "2024/06/02" 100
    (by simp) (by decide)

/-- C7 counterexample: the claim says a date present in only one grid
yields no entry rather than an error; but for a date present only in the
sunrise grid the join raises `KeyError` instead of returning a mapping. -/
theorem daylight_sunrise_only_counterexample :
    daylight_join [("2024/01/01", 100)] [] [] = .error .keyError := by
  decide
